import Mathlib

/-
Verification of the SCAN cache decoder (Superior Cache ANalyzer).

This file is a shallow embedding, in Lean 4, of the parts of the Python
source under scan/ that the checked claims are about:

  * scan/utils.py      -- module attribute table, align
  * scan/directory.py  -- DirEntry bit unpacking, Doc header constants
  * scan/stripe.py     -- Stripe.read metadata-copy selection, heads
                          filtering, firstDocs slicing, the parallel
                          enumeration consumer loop, Stripe.fetch
  * scan/span.py       -- Span.__init__ per-stripe loop
  * scan/http.py       -- Alternate.fromBuffer fragment table,
                          Alternate.requestURL
  * scan/config.py     -- parseVolumeConfig, INK_MD5_SIZE

Python exceptions are modelled with an explicit error type, Python
strings with `List Char`, byte buffers with `List Nat`, and the dynamic
name lookups that the source performs (`this`, `utils.log_exc`) with an
explicit table of the names each module actually binds.
-/

namespace Scan

/-- Python identifiers that the embedding has to resolve dynamically:
the names bound at module level in scan/utils.py and scan/stripe.py, the
local names in scope inside `Stripe.read`, and the unbound names `this`
and `log_exc` that the source refers to. -/
inductive PyName where
  | osModule
  | sysModule
  | structModule
  | enumModule
  | psutilModule
  | typingModule
  | timeModule
  | asyncioModule
  | ioModule
  | multiprocessingModule
  | npAlias
  | directoryModule
  | utilsModule
  | configModule
  | unsignedLongLongSize
  | pointerSize
  | storeBlockSize
  | volBlockSize
  | cacheType
  | unpacklong
  | fileSize
  | alignFn
  | numProcs
  | isatty
  | messageTemplate
  | log
  | logExc
  | spanBlockHeaderCls
  | stripeCls
  | sorDirSize
  | selfVar
  | infileVar
  | rawHeaderA
  | rawHeaderB
  | offsetBVar
  | aVar
  | bVar
  | this
  deriving DecidableEq

/-- Python exceptions raised (or promised) by the embedded code paths.
The three config constructors stand for the `ConfigException`s that
`parseVolumeConfig` can raise. -/
inductive PyErr where
  | nameError (n : PyName)
  | attributeError (n : PyName)
  | valueError
  | typeError
  | indexError
  | structError
  | configDuplicate
  | configNoStorage
  | configOverAllocated
  deriving DecidableEq

/-- Attributes of the scan.utils module (scan/utils.py): its imports,
constants, classes and functions. The source defines a function `log`
(twice, then re-binds it with `log = log`) but never defines `log_exc`,
so `log_exc` does not appear here. -/
def utilsModuleAttrs : List PyName :=
  [.osModule, .sysModule, .structModule, .enumModule, .psutilModule,
   .unsignedLongLongSize, .pointerSize, .storeBlockSize, .volBlockSize,
   .cacheType, .unpacklong, .fileSize, .alignFn, .numProcs,
   .isatty, .messageTemplate, .log]

/-- Names visible inside the body of `Stripe.read` (scan/stripe.py):
the function's local variables, then the names bound at module level in
scan/stripe.py, i.e. its imports and its three top-level definitions.
`this` is neither a local, a module global, nor a Python builtin, so it
is absent. -/
def stripeReadScope : List PyName :=
  [.selfVar, .infileVar, .rawHeaderA, .rawHeaderB, .offsetBVar, .aVar, .bVar,
   .structModule, .typingModule, .timeModule, .asyncioModule, .ioModule,
   .multiprocessingModule, .npAlias, .directoryModule, .utilsModule,
   .spanBlockHeaderCls, .stripeCls, .sorDirSize]

/-- Embedding of `utils.align(alignMe, alignTo)` from scan/utils.py:
`x = alignMe % alignTo; return alignMe + (alignTo - x) if x else alignMe`.
Lean's `%` on `Int` agrees with Python's `%` for a positive modulus. -/
def utilsAlign (alignMe alignTo : Int) : Int :=
  let x := alignMe % alignTo
  if x ≠ 0 then alignMe + (alignTo - x) else alignMe

/-- Embedding of `config.INK_MD5_SIZE()` from scan/config.py:
32 if FIPS else 16. -/
def inkMd5Size (fips : Bool) : Nat :=
  if fips then 32 else 16

/-- Python list/bytes slice `l[a:b]` for non-negative bounds: the
elements at indices `a ≤ i < b`, clamped to the length of `l`. -/
def listSlice (l : List α) (a b : Nat) : List α :=
  (l.take b).drop a

/-- Python slice `s[-k:]` for `k > 0`: the last `k` elements (the whole
list when `k` is at least its length). -/
def pyTailSlice (l : List α) (k : Nat) : List α :=
  l.drop (l.length - k)

/-! Embedding of scan/directory.py -/

/-- Embedding of `DirEntry` as built by `DirEntry.__init__`
(scan/directory.py): the decoded fields of one 10-byte directory entry.
`rawOff` is the `_offset` member and `Offset` the file-relative byte
offset `(off - 1) * 512`. -/
structure DirEntryT where
  length : Nat
  rawOff : Nat
  token : Bool
  pinned : Bool
  head : Bool
  phase : Bool
  tag : Nat
  next : Nat
  Offset : Int
  deriving DecidableEq

/-- Embedding of `DirEntry.__init__(raw)` from scan/directory.py, given
the five unpacked little-endian u16 half-words `w[0..4]`:

  big, size = (w[1] & 0xC000) >> 14, (w[1] & 0x3F00) >> 10
  off = w[0] + ((w[1] & 0x00FF) << 16) + (w[4] << 24)
  length  = (size + 1) * (1 << (9 + (3*big)))
  token   = w[2] & 0x8000 == 0x8000 ; pinned = w[2] & 0x4000 == 0x4000
  head    = w[2] & 0x2000 == 0x2000 ; phase  = w[2] & 0x1000 == 0x1000
  tag     = w[2] & 0x0FFF ; next = w[3] ; Offset = (off - 1) * 512 -/
def dirEntryInit (w0 w1 w2 w3 w4 : Nat) : DirEntryT :=
  let big := (w1 &&& 0xC000) >>> 14
  let size := (w1 &&& 0x3F00) >>> 10
  let off := w0 + ((w1 &&& 0xFF) <<< 16) + (w4 <<< 24)
  { length := (size + 1) * (1 <<< (9 + 3 * big))
    rawOff := off
    token := w2 &&& 0x8000 = 0x8000
    pinned := w2 &&& 0x4000 = 0x4000
    head := w2 &&& 0x2000 = 0x2000
    phase := w2 &&& 0x1000 = 0x1000
    tag := w2 &&& 0x0FFF
    next := w3
    Offset := ((off : Int) - 1) * 512 }

/-- Embedding of `DirEntry.__bool__` from scan/directory.py: the entry
is in use iff its raw offset `_offset` is positive. -/
def dirEntryInUse (d : DirEntryT) : Bool :=
  0 < d.rawOff

/-- Size in bytes of the fixed `Doc` header, `struct.calcsize("II5QI4BIIII")`
from scan/directory.py: 4+4+5*8+4+4*1+4+4+4+4 = 72 with native alignment. -/
def DOC_SIZEOF : Nat := 72

/-- Magic number of a valid `Doc` (scan/directory.py). -/
def DOC_MAGIC : Nat := 0x5F129B13

/-- Magic number of a corrupt `Doc` (scan/directory.py). -/
def DOC_CORRUPT_MAGIC : Nat := 0xDEADBABE

/-- Embedding of the `Doc` ctypes structure header fields
(scan/directory.py). `keys` holds the four u64 hash words. -/
structure DocHeader where
  magic : Nat
  length : Nat
  totalLength : Nat
  keys : List Nat
  hlen : Nat
  docType : Nat
  versionMajor : Nat
  versionMinor : Nat
  unused : Nat
  syncSerial : Nat
  writeSerial : Nat
  pinned : Nat
  checksum : Nat
  deriving DecidableEq

/-! Embedding of the Stripe.firstDocs / Stripe.fetch slicing
(scan/stripe.py) -/

/-- Embedding of the byte region that `Stripe.firstDocs` (and
`Stripe.fetch`) hand to the alternates parser: the source computes
`buffer[directory.Doc.sizeof : doc.hlen]`, i.e. the Python slice
`buffer[72 : hlen]`. -/
def firstDocsInfoBytes (buffer : List Nat) (hlen : Nat) : List Nat :=
  listSlice buffer DOC_SIZEOF hlen

/-- Embedding of the payload-body region set by `Stripe.firstDocs`:
`buffer[directory.Doc.sizeof + doc.hlen : len(doc)]`, i.e.
`buffer[72 + hlen : length]`. -/
def firstDocsDataBytes (buffer : List Nat) (hlen length : Nat) : List Nat :=
  listSlice buffer (DOC_SIZEOF + hlen) length

/-- Embedding of the per-head branch of `Stripe.firstDocs`
(scan/stripe.py): when the parsed `Doc` header has the valid magic and
`hlen > 0`, the info and data regions are sliced out of the read buffer
as in the source; otherwise the entry yields nothing. -/
def firstDocsProcess (doc : DocHeader) (buffer : List Nat) :
    Option (List Nat × List Nat) :=
  if doc.magic = DOC_MAGIC ∧ 0 < doc.hlen then
    some (firstDocsInfoBytes buffer doc.hlen,
          firstDocsDataBytes buffer doc.hlen doc.length)
  else
    none

/-- Modelled from the spec: the serialized-alternates region named by
the specification, bytes `[72, 72 + hlen)` of the read buffer (the
`hlen` bytes immediately following the 72-byte Doc header). Declared
separately so it can be compared with `firstDocsInfoBytes`. -/
def specAlternatesRegion (buffer : List Nat) (hlen : Nat) : List Nat :=
  listSlice buffer DOC_SIZEOF (DOC_SIZEOF + hlen)

/-! Embedding of the Stripe.heads directory filter (scan/stripe.py) -/

/-- One row of the stripe directory: five u16 half-words, as stored in
the numpy view `self.directory` of shape (numDirEntries, 5). -/
structure DirRow where
  w0 : Nat
  w1 : Nat
  w2 : Nat
  w3 : Nat
  w4 : Nat
  deriving DecidableEq

/-- Embedding of the offset mask of `Stripe.heads` and
`Stripe.parallelStoredObjects`:
`self.directory[:,0] + (self.directory[:,1] & 0xFF) + self.directory[:,4] > 0`.
The three columns are numpy uint16 arrays, so each addition wraps
modulo 2^16 before the comparison with zero. -/
def headsOffsetMask (r : DirRow) : Bool :=
  ((r.w0 + (r.w1 &&& 0xFF)) % 65536 + r.w4) % 65536 ≠ 0

/-- Embedding of the phase/head mask of `Stripe.heads`: when the stripe
phase is set, `heads[:,2] & 0x3000 == 0x3000`; otherwise
`(heads[:,2] & 0x3000) ^ 0x2000 == 0`. -/
def headsPhaseMask (phase : Bool) (r : DirRow) : Bool :=
  if phase then r.w2 &&& 0x3000 = 0x3000
  else (r.w2 &&& 0x3000) ^^^ 0x2000 = 0

/-- Embedding of the row selection performed by `Stripe.heads`
(scan/stripe.py): first the nonzero-sum offset mask, then the
phase-dependent head mask. -/
def stripeHeads (phase : Bool) (rows : List DirRow) : List DirRow :=
  (rows.filter headsOffsetMask).filter (headsPhaseMask phase)

/-- The true raw offset encoded in a directory row, as `dirOffset` in
scan/directory.py builds it: `d[0] + ((d[1] & 0xFF) << 16) + (d[4] << 24)`. -/
def dirRawOffset (r : DirRow) : Nat :=
  r.w0 + ((r.w1 &&& 0xFF) <<< 16) + (r.w4 <<< 24)

/-! Embedding of Stripe.read metadata-copy selection (scan/stripe.py) -/

/-- Magic number of valid stripe metadata (scan/stripe.py, `Stripe.MAGIC`). -/
def STRIPE_MAGIC : Nat := 0xF1D0F00D

/-- Size in bytes of the stripe metadata header,
`struct.calcsize("Ihhl3Q8I")` = 4+2+2+8+24+32 = 72 with native alignment. -/
def STRIPE_SIZEOF : Nat := 72

/-- The fifteen values unpacked from one stripe metadata header with
format "Ihhl3Q8I", in source order: the tuple `A` (or `B`) inside
`Stripe.read`. Index 0 is the magic and index 10 the sync serial. -/
structure StripeMetaRaw where
  magic : Int
  versionMajor : Int
  versionMinor : Int
  createTime : Int
  writeCursor : Int
  lastWritePos : Int
  aggPos : Int
  generation : Int
  phase : Int
  cycle : Int
  syncSerial : Int
  writeSerial : Int
  dirty : Int
  sectorSize : Int
  unused : Int
  deriving DecidableEq

/-- The stripe fields populated by a completed `Stripe.read`. -/
structure StripeMeta where
  spanBlockOffset : Int
  directoryOffset : Int
  versionMajor : Int
  versionMinor : Int
  createTime : Int
  writeCursor : Int
  lastWritePos : Int
  aggPos : Int
  generation : Int
  phase : Bool
  cycle : Int
  syncSerial : Int
  writeSerial : Int
  dirty : Int
  sectorSize : Int
  unused : Int
  validityLimit : Int

/-- Embedding of the tail of `Stripe.read` (scan/stripe.py lines
443-476), starting at the metadata-copy selection.  `A` and `B` are the
two unpacked metadata headers; `offsetA` is the span-block offset,
`offsetB` the computed copy-B offset, `dirOffsetA` the directory offset
computed for copy A, and `contentOffset`, `numSegs` the values obtained
earlier in `read` from `SORdirSize`.

The source line is `if B[0] == this.MAGIC and B[10] > A[10]:`.  Python
evaluates `this.MAGIC` first, which requires resolving the name `this`;
the embedding therefore consults `stripeReadScope` and raises
`NameError` when `this` is unbound, exactly as CPython does.  The first
branch of the `if` below is the selection the line would perform had it
resolved (i.e. with `self.MAGIC`), kept for completeness. -/
def stripeReadFinish (A B : StripeMetaRaw)
    (offsetA offsetB dirOffsetA contentOffset numSegs : Int) :
    Except PyErr StripeMeta :=
  if stripeReadScope.contains PyName.this then
    let chooseB : Bool :=
      decide (B.magic = (STRIPE_MAGIC : Int)) && decide (A.syncSerial < B.syncSerial)
    let data := if chooseB then B else A
    let sbOff := if chooseB then offsetB else offsetA
    let dirOff :=
      if chooseB then utilsAlign (offsetB + (STRIPE_SIZEOF : Int) + 2 * numSegs) 8192
      else dirOffsetA
    if data.magic ≠ (STRIPE_MAGIC : Int) then .error .valueError
    else
      .ok { spanBlockOffset := sbOff
            directoryOffset := dirOff
            versionMajor := data.versionMajor
            versionMinor := data.versionMinor
            createTime := data.createTime
            writeCursor := data.writeCursor
            lastWritePos := data.lastWritePos
            aggPos := data.aggPos
            generation := data.generation
            phase := data.phase != 0
            cycle := data.cycle
            syncSerial := data.syncSerial
            writeSerial := data.writeSerial
            dirty := data.dirty
            sectorSize := data.sectorSize
            unused := data.unused
            validityLimit :=
              Int.fdiv (data.aggPos - contentOffset +
                        (if data.phase != 0 then data.writeCursor else 0)) 0x200 }
  else
    .error (.nameError PyName.this)

/-! Embedding of Span.__init__ (scan/span.py) -/

/-- Embedding of `SpanBlockHeader.__init__` fields (scan/stripe.py). -/
structure SpanBlockHeaderT where
  offset : Nat
  length : Nat
  number : Int
  cacheTy : Nat
  free : Bool
  deriving DecidableEq

/-- Embedding of `SpanBlockHeader.__init__` given the four unpacked
values (format "QQiI"): `utils.CacheType(typeFree & 0x07)` raises
`ValueError` unless the three type bits name a member of the enum
{NONE=0, HTTP=1, RTSP=2}; `free` is bit 3. -/
def spanBlockHeaderInit (offset length : Nat) (number : Int) (typeFree : Nat) :
    Except PyErr SpanBlockHeaderT :=
  if typeFree &&& 0x07 ≤ 2 then
    .ok { offset := offset, length := length, number := number,
          cacheTy := typeFree &&& 0x07, free := typeFree &&& 0x08 = 0x08 }
  else
    .error .valueError

/-- One declared stripe of a span, as consumed by the `Span.__init__`
loop: the four span-block-header values unpacked for it, together with
the data its `Stripe.read` call would then read and compute (the two
metadata copies and the offsets that `read` derives before the copy
selection). -/
structure SpanStripeInput where
  offset : Nat
  length : Nat
  number : Int
  typeFree : Nat
  metaA : StripeMetaRaw
  metaB : StripeMetaRaw
  offsetA : Int
  offsetB : Int
  dirOffsetA : Int
  contentOffset : Int
  numSegs : Int

/-- Embedding of the per-stripe loop of `Span.__init__` (scan/span.py
lines 63-71):

  for each declared stripe header:
      try: spanblock = stripe.Stripe(...)
      except ValueError: utils.log_exc(...); print(...)
      else: spanblock.read(); self.blocks.append(spanblock)

A `ValueError` from construction enters the handler, whose first
statement accesses `utils.log_exc`; when that attribute is missing the
access raises `AttributeError`, which nothing catches.  `read()` sits in
the `else:` clause, outside the `try`, so any exception it raises also
propagates out of `Span.__init__`. -/
def spanInitBlocks : List SpanStripeInput → Except PyErr (List StripeMeta)
  | [] => .ok []
  | blk :: rest =>
    match spanBlockHeaderInit blk.offset blk.length blk.number blk.typeFree with
    | .error .valueError =>
      if utilsModuleAttrs.contains PyName.logExc then
        spanInitBlocks rest
      else
        .error (.attributeError PyName.logExc)
    | .error e => .error e
    | .ok _ =>
      match stripeReadFinish blk.metaA blk.metaB blk.offsetA blk.offsetB
            blk.dirOffsetA blk.contentOffset blk.numSegs with
      | .error e => .error e
      | .ok m => (spanInitBlocks rest).map fun ms => m :: ms

/-! Embedding of the parallel enumeration queue protocol
(scan/stripe.py) -/

/-- Embedding of what one `Stripe.parallelObjs` worker pushes into the
shared queue: each produced value, then — in the `finally:` block — the
single sentinel `None`. -/
def workerQueue (vals : List α) : List (Option α) :=
  vals.map some ++ [none]

/-- Embedding of the consumer loop of `Stripe.parallelStoredObjects`
(scan/stripe.py lines 802-810), run over the sequence of queue items it
would receive:

  count = 1
  while count < numprocs:
      val = q.get()
      if val is None: count += 1
      else: self.objs.append(val); yield val

The recursion consumes the queue history in order; an empty history
means the consumer would block, ending the model. -/
def consumeLoop (numprocs : Nat) : Nat → List (Option α) → List α
  | _, [] => []
  | count, item :: rest =>
    if count < numprocs then
      match item with
      | none => consumeLoop numprocs (count + 1) rest
      | some v => v :: consumeLoop numprocs count rest
    else []

/-- The values yielded by the `parallelStoredObjects` consumer for a
given queue history: `consumeLoop` started with `count = 1`, as in the
source. -/
def parallelConsume (numprocs : Nat) (q : List (Option α)) : List α :=
  consumeLoop numprocs 1 q

/-! Embedding of Alternate.fromBuffer fragment tables (scan/http.py) -/

/-- Size in bytes of the fixed-length Alternate prefix:
`utils.align(struct.calcsize(BASIC_FORMAT), struct.calcsize("L"))` with
`BASIC_FORMAT = "I10i6Pii4?6Pii4?lliP4LP"` on an LP64 platform:
calcsize gives 248 (including the native alignment padding before each
pointer and long), which is already 8-aligned. -/
def ALT_SIZEOF : Nat := 248

/-- Little-endian value of a chunk of bytes, least significant first. -/
def leValue (chunk : List Nat) : Nat :=
  chunk.foldr (fun b acc => b + 256 * acc) 0

/-- Splits a byte list into consecutive chunks of eight. -/
def chunks8 (l : List Nat) : List (List Nat) :=
  match l with
  | [] => []
  | a :: rest => (a :: rest.take 7) :: chunks8 (rest.drop 7)
termination_by l.length
decreasing_by
  simp only [List.length_drop, List.length_cons]
  omega

/-- Embedding of `struct.unpack("%dP" % n, bytes)` for u64 pointers:
succeeds only when the buffer length is exactly `8 * n`, else raises
`struct.error` (modelled as `none`). -/
def structUnpackU64s (n : Nat) (bytes : List Nat) : Option (List Nat) :=
  if bytes.length = 8 * n then some ((chunks8 bytes).map leValue) else none

/-- Embedding of the fragment-table step of `Alternate.fromBuffer`
(scan/http.py lines 574-585):

  numFrags = fragOffsetCount - 4 if fragOffsetCount > 4 else 0
  fragTblSize = numFrags * struct.calcsize('P')
  if fragTblSize > 0:
      struct.unpack("%dP" % numFrags, raw[cls.sizeof:fragTblSize])

The slice bound is the source's: `raw[248 : fragTblSize]`.  A `none`
result models the `struct.error` path, on which `fromBuffer` returns
`current`, dropping the alternate and ending the list. -/
def altFragTableRead (raw : List Nat) (fragOffsetCount : Int) : Option (List Nat) :=
  let numFrags : Nat := if 4 < fragOffsetCount then (fragOffsetCount - 4).toNat else 0
  let fragTblSize := numFrags * 8
  if 0 < fragTblSize then
    structUnpackU64s numFrags (listSlice raw ALT_SIZEOF fragTblSize)
  else
    some []

/-! Python string primitives used by scan/http.py and scan/config.py,
with Python strings modelled as `List Char` -/

/-- Index of the first occurrence of `needle` as a contiguous sublist
of the argument, as Python's `str.index`/`str.find` computes it
(`none` models the not-found case). -/
def subIdx (needle : List Char) : List Char → Option Nat
  | [] => if needle.isEmpty then some 0 else none
  | c :: rest =>
    if needle.isPrefixOf (c :: rest) then some 0
    else (subIdx needle rest).map (fun i => i + 1)

/-- Python `line.index(c, start)` for a single character: the first
index `≥ start` holding `c`. -/
def charIdxFrom (c : Char) (l : List Char) (start : Nat) : Option Nat :=
  (subIdx [c] (l.drop start)).map (fun i => i + start)

/-- Whitespace characters stripped by Python's `str.strip()`. -/
def isPySpace (c : Char) : Bool :=
  c = ' ' || c = '\t' || c = '\n' || c = '\r' || c = '\x0b' || c = '\x0c'

/-- Embedding of Python `str.strip()`: removes leading and trailing
whitespace. -/
def pyStrip (l : List Char) : List Char :=
  ((l.dropWhile isPySpace).reverse.dropWhile isPySpace).reverse

/-- Embedding of Python `str.split(c)` for a one-character separator:
`"".split(c)` gives `[""]`, and separators at the ends give empty
pieces, as in Python. -/
def splitOnChar (c : Char) : List Char → List (List Char)
  | [] => [[]]
  | d :: rest =>
    if d = c then [] :: splitOnChar c rest
    else
      match splitOnChar c rest with
      | [] => [[d]]
      | h :: t => (d :: h) :: t

/-- Digits of a non-empty all-digit string as a number (`none` when the
string is empty or holds a non-digit). -/
def pyDigits (l : List Char) : Option Nat :=
  match l with
  | [] => none
  | _ =>
    l.foldl
      (fun acc c =>
        match acc with
        | none => none
        | some n => if c.isDigit then some (n * 10 + (c.toNat - 48)) else none)
      (some 0)

/-- Embedding of Python `int(s)`: strips whitespace, accepts an
optional sign followed by digits, and raises `ValueError` (modelled as
`none`) otherwise. -/
def pyParseInt (l : List Char) : Option Int :=
  match pyStrip l with
  | '-' :: rest => (pyDigits rest).map (fun n => -(n : Int))
  | '+' :: rest => (pyDigits rest).map (fun n => (n : Int))
  | t => (pyDigits t).map (fun n => (n : Int))

/-- Embedding of Python `str.lower()` for the ASCII range used here. -/
def pyLower (l : List Char) : List Char :=
  l.map Char.toLower

/-- Python `==` between an `int` and a `str` never holds: values of
different, non-coercible types compare unequal. -/
def pyIntEqStr (_ : Int) (_ : List Char) : Bool :=
  false

/-- Embedding of Python `volumeNo in contents` where `contents` is a
list of strings and `volumeNo` an int: membership tests each element
with `==`, so it is false for every list. -/
def pyIntInStrList (n : Int) (ls : List (List Char)) : Bool :=
  ls.any (fun l => pyIntEqStr n l)

/-! Embedding of parseVolumeConfig (scan/config.py) -/

/-- Python dict assignment `ret[k] = v` on an insertion-ordered dict:
overwrites in place when the key exists, otherwise appends. -/
def upsert : List (Int × α) → Int → α → List (Int × α)
  | [], k, v => [(k, v)]
  | (k0, v0) :: rest, k, v =>
    if k0 = k then (k0, v) :: rest else (k0, v0) :: upsert rest k v

/-- The needle `"volume="`. -/
def volumeEqChars : List Char := ['v', 'o', 'l', 'u', 'm', 'e', '=']

/-- The needle `"size="`. -/
def sizeEqChars : List Char := ['s', 'i', 'z', 'e', '=']

/-- Embedding of the per-line loop of `parseVolumeConfig`
(scan/config.py lines 344-394).  `storageTotal` is
`totalCacheSizeAvailable()` when `STORAGE_CONFIG` is non-empty, else
`none`.  `allLines` is the list the source names `contents` after
`contents.strip().split('\n')`; the duplicate check
`if volumeNo in contents:` tests the int against that list of strings.
Dictionary values are `(CacheType(1), size)` pairs. -/
def parseVolumeConfigLines (storageTotal : Option Nat)
    (allLines : List (List Char)) :
    List (List Char) → List (Int × (Nat × Int)) → Int →
    Except PyErr (List (Int × (Nat × Int)))
  | [], ret, _ => .ok ret
  | rawLine :: rest, ret, totalPercent =>
    let line := pyStrip rawLine
    if List.isPrefixOf ['#'] line || (subIdx volumeEqChars line).isNone then
      parseVolumeConfigLines storageTotal allLines rest ret totalPercent
    else
      match subIdx volumeEqChars line with
      | none => .error .valueError
      | some position =>
        match charIdxFrom ' ' line position with
        | none => .error .valueError
        | some sp =>
          match pyParseInt (listSlice line (position + 7) sp) with
          | none => .error .valueError
          | some volumeNo =>
            if pyIntInStrList volumeNo allLines then .error .configDuplicate
            else
              match subIdx sizeEqChars line with
              | none => .error .valueError
              | some szPos =>
                let sizeStr :=
                  match charIdxFrom ' ' line szPos with
                  | some j => listSlice line (szPos + 5) j
                  | none => line.drop (szPos + 5)
                let sizeStr := pyLower sizeStr
                if sizeStr.getLast? = some '%' then
                  match storageTotal with
                  | none => .error .configNoStorage
                  | some total =>
                    match pyParseInt sizeStr.dropLast with
                    | none => .error .valueError
                    | some pct =>
                      let totalPercent := totalPercent + pct
                      if 100 < totalPercent then .error .configOverAllocated
                      else
                        let size := Int.fdiv (pct * (total : Int)) 100
                        parseVolumeConfigLines storageTotal allLines rest
                          (upsert ret volumeNo (1, size)) totalPercent
                else
                  match pyParseInt sizeStr with
                  | none => .error .valueError
                  | some size =>
                    parseVolumeConfigLines storageTotal allLines rest
                      (upsert ret volumeNo (1, size * 0x100000)) totalPercent

/-- Embedding of `parseVolumeConfig(contents)` (scan/config.py): splits
the stripped contents on newlines and folds the per-line loop over the
result, starting from an empty dict and `totalPercent = 0`. -/
def parseVolumeConfig (storageTotal : Option Nat) (contents : List Char) :
    Except PyErr (List (Int × (Nat × Int))) :=
  let lines := splitOnChar '\n' (pyStrip contents)
  parseVolumeConfigLines storageTotal lines lines [] 0

/-! Embedding of Alternate.requestURL (scan/http.py) -/

/-- The possible runtime values of `Alternate.requestHeaders`: the
initial `None`, a decoded `str`, or the raw `bytes` kept when UTF-8
decoding failed. -/
inductive ReqHeaders where
  | pyNone
  | pyStr (s : List Char)
  | pyBytes (b : List Nat)
  deriving DecidableEq

/-- The token `'ptth'` that `requestURL` searches for in the reversed
headers. -/
def ptthChars : List Char := ['p', 't', 't', 'h']

/-- The literal `"Unknown"` of the fallback return. -/
def unknownChars : List Char := ['U', 'n', 'k', 'n', 'o', 'w', 'n']

/-- Embedding of `Alternate.requestURL` (scan/http.py lines 503-515):

  if self.request.URL: return self.request.URL
  try: beginning = self.requestHeaders[::-1].index('ptth') + 4
  except (IndexError, TypeError):
      utils.log_exc("Alternate.requestURL:")
      return "Unknown"
  return self.requestHeaders[-beginning:]

With headers `None`, reversing raises `TypeError`; with `bytes`,
`bytes.index` of a `str` needle raises `TypeError`; both enter the
handler, whose first statement accesses `utils.log_exc` (raising
`AttributeError` when absent, returning `"Unknown"` otherwise).  With a
decoded `str` that lacks the token, `str.index` raises `ValueError`,
which the handler does not catch. -/
def requestURLImpl (url : Option (List Char)) (hdrs : ReqHeaders) :
    Except PyErr (List Char) :=
  match url with
  | some u => .ok u
  | none =>
    match hdrs with
    | .pyNone =>
      if utilsModuleAttrs.contains PyName.logExc then .ok unknownChars
      else .error (.attributeError PyName.logExc)
    | .pyBytes _ =>
      if utilsModuleAttrs.contains PyName.logExc then .ok unknownChars
      else .error (.attributeError PyName.logExc)
    | .pyStr s =>
      match subIdx ptthChars s.reverse with
      | some i => .ok (pyTailSlice s (i + 4))
      | none => .error .valueError

/-! Embedding of Stripe.fetch integer-index path (scan/stripe.py) -/

/-- Embedding of the three-integer-index path of `Stripe.fetch`
(scan/stripe.py lines 564-569):

  try: dirent = self.directory[arg0, arg1, arg2]
  except IndexError:
      utils.log_exc("Stripe.fetch:")
      return None

`self.directory` is a 2-D numpy array once `readDir` has run, so
indexing it with three integers raises `IndexError` and the handler
runs; its first statement accesses `utils.log_exc`.  Before `readDir`,
`self.directory` is `None` and the subscript raises `TypeError`
(uncaught). -/
def stripeFetchIntPath (directoryRead : Bool) (_arg0 _arg1 _arg2 : Int) :
    Except PyErr (Option Nat) :=
  if directoryRead then
    if utilsModuleAttrs.contains PyName.logExc then .ok none
    else .error (.attributeError PyName.logExc)
  else
    .error .typeError

/-! Concrete inputs used by the theorems -/

/-- A stripe metadata header with a valid magic (other fields arbitrary,
taken from the repository's own test fixture values). -/
def metaRawValid : StripeMetaRaw :=
  { magic := 0xF1D0F00D, versionMajor := 24, versionMinor := 0,
    createTime := 0, writeCursor := 0x60000, lastWritePos := 0x60000,
    aggPos := 0x60000, generation := 0, phase := 0, cycle := 0,
    syncSerial := 0, writeSerial := 0, dirty := 0, sectorSize := 0x1000,
    unused := 0 }

/-- A well-formed HTTP stripe declaration (type bits = 1) with
readable metadata copies. -/
def spanStripeGood : SpanStripeInput :=
  { offset := 0x4000, length := 0x4000, number := 0, typeFree := 1,
    metaA := metaRawValid, metaB := metaRawValid, offsetA := 0x4000,
    offsetB := 0x2000000, dirOffsetA := 0x6000, contentOffset := 0x60000,
    numSegs := 1 }

/-- A stripe declaration whose type bits are 3: `utils.CacheType(3)`
raises `ValueError`, entering the `except ValueError` handler of
`Span.__init__`. -/
def spanStripeBadType : SpanStripeInput :=
  { spanStripeGood with typeFree := 3 }

/-- A directory row whose u16 offset half-words sum to 0x10000: the
raw offset is nonzero but the numpy uint16 sum wraps to zero.  Its
`w[2]` has both the head bit (0x2000) and the phase bit (0x1000) set. -/
def dirRowOverflow : DirRow :=
  { w0 := 0x8000, w1 := 0, w2 := 0x3000, w3 := 0, w4 := 0x8000 }

/-- A directory row with a small nonzero offset and the same head and
phase bits, which the filter keeps. -/
def dirRowSmall : DirRow :=
  { w0 := 1, w1 := 0, w2 := 0x3000, w3 := 0, w4 := 0 }

/-- A 300-byte read buffer with distinct byte values. -/
def docBuffer300 : List Nat := List.range 300

/-- A valid first-Doc header with `hlen = 100` and `length = 250`. -/
def docHeaderSample : DocHeader :=
  { magic := DOC_MAGIC, length := 250, totalLength := 250,
    keys := [0, 0, 0, 0], hlen := 100, docType := 1, versionMajor := 24,
    versionMinor := 0, unused := 0, syncSerial := 0, writeSerial := 0,
    pinned := 0, checksum := 0 }

/-- The volume.config contents `"volume=1 size=100\nvolume=1 size=200"`,
which defines volume 1 twice. -/
def vcDupInput : List Char :=
  ['v', 'o', 'l', 'u', 'm', 'e', '=', '1', ' ',
   's', 'i', 'z', 'e', '=', '1', '0', '0', '\n',
   'v', 'o', 'l', 'u', 'm', 'e', '=', '1', ' ',
   's', 'i', 'z', 'e', '=', '2', '0', '0']

/-- Decoded request headers that do not contain the token `"http"`. -/
def reqHdrsNoToken : List Char := ['a', 'b', 'c']

/-- Decoded request headers containing the token `"http"`. -/
def reqHdrsWithToken : List Char :=
  ['x', 'x', 'h', 't', 't', 'p', ':', '/', '/', 'e']

/-- The slice of `reqHdrsWithToken` from the token position. -/
def httpSliceSample : List Char :=
  ['h', 't', 't', 'p', ':', '/', '/', 'e']

/-- A decoded request URL value. -/
def urlSample : List Char := ['u']

/-! Theorems -/

/-- Length of a Python-style slice. -/
theorem listSlice_length (l : List α) (a b : Nat) :
    (listSlice l a b).length = min b l.length - a := by
  simp [listSlice]

/-- Claim C1: the metadata-copy selection of `Stripe.read` compares
`B[0]` with `this.MAGIC`, but `this` is bound nowhere in scope, so the
branch always raises `NameError` instead of selecting a copy and
populating the stripe's fields. -/
theorem c1_stripe_read_selection_raises :
    stripeReadScope.contains PyName.this = false ∧
    ∀ (A B : StripeMetaRaw) (offsetA offsetB dirOffsetA contentOffset numSegs : Int),
      stripeReadFinish A B offsetA offsetB dirOffsetA contentOffset numSegs =
        .error (.nameError PyName.this) :=
  ⟨rfl, fun _ _ _ _ _ _ _ => rfl⟩

/-- Claim C2: a `ValueError` during stripe construction enters the
handler of `Span.__init__`, whose call to the missing `utils.log_exc`
raises `AttributeError` and aborts the whole span, so the following
well-formed stripe is never constructed; and a failure inside
`Stripe.read` (which sits outside the `try`) likewise aborts the span
instead of being skipped. -/
theorem c2_span_init_aborts :
    spanInitBlocks [spanStripeBadType, spanStripeGood] =
      .error (.attributeError PyName.logExc) ∧
    spanInitBlocks [spanStripeGood] = .error (.nameError PyName.this) :=
  ⟨rfl, rfl⟩

/-- Claim C3: the heads filter computes the offset test with wrapping
numpy uint16 sums, so the row `(0x8000, 0, 0x3000, 0, 0x8000)` — whose
raw offset is nonzero and whose head and phase bits match a set stripe
phase — is omitted from the iteration, while an ordinary in-phase head
row is kept. -/
theorem c3_heads_drops_wrapped_offset :
    dirRawOffset dirRowOverflow ≠ 0 ∧
    headsPhaseMask true dirRowOverflow = true ∧
    stripeHeads true [dirRowOverflow] = [] ∧
    stripeHeads true [dirRowSmall] = [dirRowSmall] := by
  decide

/-- Claim C4: for a valid first-Doc with `hlen = 100` and
`length = 250` read into a 300-byte buffer, `Stripe.firstDocs` hands
the alternates parser the slice `buffer[72:100]` (28 bytes) rather than
the 100 bytes `[72, 172)` that the specification names, while the
payload body is `[172, 250)` as specified. -/
theorem c4_alternates_region_misaligned :
    firstDocsProcess docHeaderSample docBuffer300 =
      some (listSlice docBuffer300 72 100, listSlice docBuffer300 172 250) ∧
    (firstDocsInfoBytes docBuffer300 100).length = 28 ∧
    (specAlternatesRegion docBuffer300 100).length = 100 ∧
    firstDocsInfoBytes docBuffer300 100 ≠ specAlternatesRegion docBuffer300 100 := by
  refine ⟨rfl, rfl, rfl, by decide⟩

/-- Claim C5: whenever `fragOffsetCount > 4`, the fragment-table read
of `Alternate.fromBuffer` slices `raw[248 : fragTblSize]`, whose length
is always strictly smaller than the `8 × (fragOffsetCount − 4)` bytes
that `struct.unpack` demands, so the decode raises `struct.error` for
every buffer and the alternate is dropped. -/
theorem c5_frag_table_never_decodes (raw : List Nat) (count : Int)
    (h : 4 < count) : altFragTableRead raw count = none := by
  have hn : 0 < (count - 4).toNat := by omega
  simp only [altFragTableRead, if_pos h, structUnpackU64s, listSlice_length,
    ALT_SIZEOF]
  rw [if_pos (by omega : 0 < (count - 4).toNat * 8)]
  rw [if_neg ?_]
  have hmin := Nat.min_le_left ((count - 4).toNat * 8) raw.length
  omega

/-- Witness for C5 at `raw = []`, `fragOffsetCount = 5`. -/
theorem c5_frag_table_witness :
    (4 : Int) < 5 ∧ altFragTableRead [] 5 = none :=
  ⟨by norm_num, c5_frag_table_never_decodes [] 5 (by norm_num)⟩

/-- Claim C6: `Alternate.requestURL` returns the decoded URL when
present and the token-based slice when the decoded headers contain
`"http"`, but on every fallback path it raises instead of returning
`"Unknown"`: a decoded header without the token raises the uncaught
`ValueError` from `str.index`, and absent (`None`) or undecodable
(`bytes`) headers reach the handler whose `utils.log_exc` call raises
`AttributeError`. -/
theorem c6_request_url_fallback_raises :
    requestURLImpl (some urlSample) ReqHeaders.pyNone = .ok urlSample ∧
    requestURLImpl none (.pyStr reqHdrsWithToken) = .ok httpSliceSample ∧
    requestURLImpl none (.pyStr reqHdrsNoToken) = .error .valueError ∧
    requestURLImpl none .pyNone = .error (.attributeError PyName.logExc) ∧
    requestURLImpl none (.pyBytes [104, 116, 116, 112]) =
      .error (.attributeError PyName.logExc) :=
  ⟨rfl, rfl, rfl, rfl, rfl⟩

/-- Claim C7: each worker pushes exactly one sentinel after its values,
but the consumer starts its sentinel counter at 1 and stops once
`count` reaches `worker_count`, i.e. after `worker_count − 1` sentinels:
with two workers whose queue history is `[None, (value), None]`, the
consumer terminates at the first sentinel and the second worker's value
is never yielded. -/
theorem c7_consumer_stops_one_sentinel_early :
    workerQueue ([7] : List Nat) = [some 7, none] ∧
    workerQueue ([] : List Nat) ++ workerQueue [7] = [none, some 7, none] ∧
    parallelConsume 2 (workerQueue ([] : List Nat) ++ workerQueue [7]) = [] :=
  ⟨rfl, rfl, rfl⟩

/-- Claim C8: the duplicate check of `parseVolumeConfig` tests the int
`volumeNo` for membership in the list of config lines (strings), which
is always false, so a file defining volume 1 twice parses without a
`ConfigException` and the second definition silently overwrites the
first (final size 200 MiB). -/
theorem c8_duplicate_volume_not_rejected :
    parseVolumeConfig none vcDupInput = .ok [(1, (1, 200 * 0x100000))] ∧
    pyIntInStrList 1 (splitOnChar '\n' vcDupInput) = false := by
  exact ⟨rfl, rfl⟩

/-- Counterexample to claim C9 as stated: for the entry packed from
`(0xA000, 0, 0x2FFF, 0, 0)`, the file-relative offset is
`(0xA000 − 1) × 512 = 20971008`, not `0xA000 × hash_size = 655360`, so
the claimed conjunction of field values is false. -/
theorem c9_file_offset_counterexample :
    ¬ ((dirEntryInit 0xA000 0 0x2FFF 0 0).rawOff = 0xA000 ∧
       (dirEntryInit 0xA000 0 0x2FFF 0 0).Offset =
         (0xA000 : Int) * (inkMd5Size false : Int) ∧
       (dirEntryInit 0xA000 0 0x2FFF 0 0).length = 512 ∧
       (dirEntryInit 0xA000 0 0x2FFF 0 0).head = true ∧
       (dirEntryInit 0xA000 0 0x2FFF 0 0).phase = false ∧
       (dirEntryInit 0xA000 0 0x2FFF 0 0).pinned = false ∧
       (dirEntryInit 0xA000 0 0x2FFF 0 0).token = false ∧
       (dirEntryInit 0xA000 0 0x2FFF 0 0).tag = 0x0FFF ∧
       (dirEntryInit 0xA000 0 0x2FFF 0 0).next = 0 ∧
       dirEntryInUse (dirEntryInit 0xA000 0 0x2FFF 0 0) = true) := by
  decide

/-- Claim C9 as amended: the constructed entry reports raw offset
`0xA000`, file-relative offset `(0xA000 − 1) × 512`, approximate size
512, head true, phase false, pinned false, token false, tag `0x0FFF`,
next 0, and tests as in use. -/
theorem c9_dir_entry_fields :
    (dirEntryInit 0xA000 0 0x2FFF 0 0).rawOff = 0xA000 ∧
    (dirEntryInit 0xA000 0 0x2FFF 0 0).Offset = ((0xA000 : Int) - 1) * 512 ∧
    (dirEntryInit 0xA000 0 0x2FFF 0 0).length = 512 ∧
    (dirEntryInit 0xA000 0 0x2FFF 0 0).head = true ∧
    (dirEntryInit 0xA000 0 0x2FFF 0 0).phase = false ∧
    (dirEntryInit 0xA000 0 0x2FFF 0 0).pinned = false ∧
    (dirEntryInit 0xA000 0 0x2FFF 0 0).token = false ∧
    (dirEntryInit 0xA000 0 0x2FFF 0 0).tag = 0x0FFF ∧
    (dirEntryInit 0xA000 0 0x2FFF 0 0).next = 0 ∧
    dirEntryInUse (dirEntryInit 0xA000 0 0x2FFF 0 0) = true := by
  decide

/-- Claim C10: scan/utils.py binds `log` but never `log_exc`, so the
recovery branches that call `utils.log_exc` raise `AttributeError`
instead of completing: `Stripe.fetch` with integer indices errors
rather than returning `None`, and `Alternate.requestURL`'s fallback
errors rather than returning `"Unknown"`. -/
theorem c10_log_exc_missing :
    utilsModuleAttrs.contains PyName.logExc = false ∧
    utilsModuleAttrs.contains PyName.log = true ∧
    stripeFetchIntPath true 0 0 0 = .error (.attributeError PyName.logExc) ∧
    requestURLImpl none ReqHeaders.pyNone = .error (.attributeError PyName.logExc) :=
  ⟨rfl, rfl, rfl, rfl⟩

end Scan
